import Mathlib

/-!
Shallow embedding of the `diana` libvirt provisioning plugin
(`tmt/steps/provision/diana.py`).

External effects (subprocess invocations of `virsh`, `virt-install`,
`ssh-keygen`, the generic SSH-guest collaborator, artifact writes and
1-second sleeps) are modelled as events recorded in a trace, with the
responses of the outside world supplied by an `Env` of oracles.  The
`domstate` and `domifaddr` oracles are indexed by the number of previous
queries of the same kind inside one top-level operation, so that the
external domain state may change between polls.  Python exceptions are
modelled with `Except PyErr`.
-/

set_option maxRecDepth 8000

/-- One external effect performed by the plugin. -/
inductive Call where
  | virshDomstate
  | virshDomifaddr
  | virshStart
  | virshShutdown
  | virshDestroy
  | virshUndefine
  | virtInstall
  | sshKeygenGen
  | sshKeygenDerive
  | sshStop
  | reconnectProbe
  | superReboot
  | writeKickstart
  | sleep1
  deriving DecidableEq, Repr

/-- Python exceptions that can escape the modelled methods. -/
inductive PyErr where
  | calledProcess (returncode : Nat)
  | indexError
  | unboundLocal (name : String)
  | assertionError
  | provisionError (msg : String)
  deriving DecidableEq, Repr

deriving instance DecidableEq for Except

/-- Responses of the outside world.  Commands run with `check=True` either
succeed or fail with a return code (`Except Nat`); the two query commands
additionally produce their stdout, already split into lines
(`splitlines`).  `domstate` and `domifaddr` are indexed by the query
count so the reported state can change between polls. -/
structure Env where
  domstate : Nat → Except Nat (List String)
  domifaddr : Nat → Except Nat (List String)
  startCmd : Except Nat Unit
  shutdownCmd : Except Nat Unit
  destroyCmd : Except Nat Unit
  undefineCmd : Except Nat Unit
  installCmd : Except Nat Unit
  keygenCmd : Except Nat Unit
  derivePub : String → String
  reconnectOk : Bool
  superReady : Bool
  superRebootOk : Bool
  tmtName : String

/-- The mutable fields of a `GuestDiana` object that the modelled methods
read or write. -/
structure Guest where
  instance_name : Option String
  guest : Option String
  port : Option Nat
  key : List String
  hardware : Option (List (String × String))
  kickstart : List (String × String)
  dry : Bool
  workdir : String
  user : String
  _instance : Option String
  deriving DecidableEq, Repr

/-- Python truthiness of the `hardware` attribute (`None` and an empty
mapping are falsy). -/
def pyTruthy : Option (List (String × String)) → Bool
  | none => false
  | some [] => false
  | some (_ :: _) => true

/-- Python `xs[-k]` for `k ≥ 1`: the `k`-th element from the end, or
`IndexError` when the list is too short. -/
def pyIdxFromEnd (xs : List String) (k : Nat) : Except PyErr String :=
  if h : k ≤ xs.length ∧ 0 < k then
    .ok (xs.get ⟨xs.length - k, by omega⟩)
  else
    .error .indexError

/-- Accumulating splitter for Python `s.split()`: split on whitespace
runs, dropping empty fields (`acc` holds the current field reversed). -/
def pySplitWsAux : List Char → List Char → List String
  | [], acc => if acc.isEmpty then [] else [String.mk acc.reverse]
  | c :: rest, acc =>
    if c.isWhitespace then
      if acc.isEmpty then pySplitWsAux rest []
      else String.mk acc.reverse :: pySplitWsAux rest []
    else pySplitWsAux rest (c :: acc)

/-- Python `s.split()` (split on whitespace runs, dropping empty fields). -/
def pySplitWs (s : String) : List String :=
  pySplitWsAux s.toList []

/-- Accumulating splitter for Python `s.split('/')` (empty fields kept,
result never empty). -/
def pySplitSlashAux : List Char → List Char → List String
  | [], acc => [String.mk acc.reverse]
  | c :: rest, acc =>
    if c = '/' then String.mk acc.reverse :: pySplitSlashAux rest []
    else pySplitSlashAux rest (c :: acc)

/-- Python `s.split('/')[0]` (`split` on a separator never returns an
empty list, so the first element always exists). -/
def pySplitSlashHead (s : String) : String :=
  (pySplitSlashAux s.toList []).headD ""

/-- `guest_state`: `virsh domstate` stdout, first line (`splitlines()[0]`,
an `IndexError` on empty output); a nonzero exit raises
`CalledProcessError`.  `q` is the index of this `domstate` query. -/
def guest_state (env : Env) (q : Nat) : Except PyErr String :=
  match env.domstate q with
  | .error r => .error (.calledProcess r)
  | .ok [] => .error .indexError
  | .ok (l :: _) => .ok l

/-- The parsing step of `get_guest_ip`:
`stdout.splitlines()[-2].split()[-1].split('/')[0]`. -/
def parseDomifaddr (lines : List String) : Except PyErr String :=
  match pyIdxFromEnd lines 2 with
  | .error e => .error e
  | .ok l =>
    match pyIdxFromEnd (pySplitWs l) 1 with
    | .error e => .error e
    | .ok f => .ok (pySplitSlashHead f)

/-- The retry loop of `get_guest_ip`: each iteration issues one
`virsh domifaddr` query; a `CalledProcessError` is caught and followed by
`time.sleep(1)` and the next iteration, while any error raised by the
parsing subscripts propagates immediately.  When the fuel runs out the
loop has ended and the `raise e` statement executes; the `except`
variable `e` has been deleted when its handler block exited, so this
raises `UnboundLocalError`, not the caught exception. -/
def get_guest_ip_go (oracle : Nat → Except Nat (List String)) :
    Nat → Nat → Except PyErr String × List Call
  | _, 0 => (.error (.unboundLocal "e"), [])
  | q, fuel + 1 =>
    match oracle q with
    | .error _ =>
      let r := get_guest_ip_go oracle (q + 1) fuel
      (r.1, Call.virshDomifaddr :: Call.sleep1 :: r.2)
    | .ok lines =>
      match parseDomifaddr lines with
      | .error err => (.error err, [Call.virshDomifaddr])
      | .ok ip => (.ok ip, [Call.virshDomifaddr])

/-- `get_guest_ip`: up to 10 attempts. -/
def get_guest_ip (oracle : Nat → Except Nat (List String)) :
    Except PyErr String × List Call :=
  get_guest_ip_go oracle 0 10

/-- Number of occurrences of one call kind in a trace. -/
def countCall (c : Call) : List Call → Nat
  | [] => 0
  | x :: t => (if x = c then 1 else 0) + countCall c t

/-- Last event of a trace, if any. -/
def lastCall : List Call → Option Call
  | [] => none
  | [x] => some x
  | _ :: x :: t => lastCall (x :: t)

/-- Jinja-style lookup of a kickstart fragment: a missing key renders as
the empty string. -/
def lookupKs (ks : List (String × String)) (k : String) : String :=
  match ks.lookup k with
  | some v => v
  | none => ""

/-- Rendering of `KICKSTART_TEMPLATE`: the fixed skeleton with the user
name, the public key and the three user-supplied fragments interpolated
(the claims never inspect the rendered text, only the effects of
producing it). -/
def renderKickstart (user pubkey : String) (ks : List (String × String)) : String :=
  String.intercalate "\n"
    ["clearpart --all --initlabel", "autopart", "rootpw rootoor",
     "sshkey --username " ++ user ++ " " ++ pubkey, "reboot",
     lookupKs ks "script", lookupKs ks "pre-install", lookupKs ks "post-install"]

/-- `_generate_ssh_key`: return at once when `self.key` is truthy
(non-empty); otherwise record the key path first and then run
`ssh-keygen` (with `check=True`). -/
def _generate_ssh_key (env : Env) (g : Guest) : Except PyErr Unit × Guest × List Call :=
  match g.key with
  | _ :: _ => (.ok (), g, [])
  | [] =>
    let g2 := { g with key := [g.workdir ++ "/ssh_key"] }
    match env.keygenCmd with
    | .error r => (.error (.calledProcess r), g2, [Call.sshKeygenGen])
    | .ok _ => (.ok (), g2, [Call.sshKeygenGen])

/-- `ssh_pubkey`: ensure the key-pair exists, then derive the public half
with `ssh-keygen -y -f key[0]` (no `check=True`: the derivation output is
a function `derivePub` of the key path). -/
def ssh_pubkey (env : Env) (g : Guest) : Except PyErr String × Guest × List Call :=
  match _generate_ssh_key env g with
  | (.error e, g2, t) => (.error e, g2, t)
  | (.ok _, g2, t) =>
    match g2.key with
    | [] => (.error PyErr.indexError, g2, t)
    | k :: _ => (.ok (env.derivePub k), g2, t ++ [Call.sshKeygenDerive])

/-- `_kickstart`: render the template against the guest (this accesses
`ssh_pubkey`, so it may generate the key-pair as a side effect). -/
def _kickstart (env : Env) (g : Guest) : Except PyErr String × Guest × List Call :=
  match ssh_pubkey env g with
  | (.error e, g2, t) => (.error e, g2, t)
  | (.ok pk, g2, t) => (.ok (renderKickstart g2.user pk g2.kickstart), g2, t)

/-- `_install`: query the domain state first and return at once when the
query succeeds; a `CalledProcessError` (undefined domain) is swallowed
and installation proceeds: render and write the kickstart artifact, then
`assert not hardware`, then run `virt-install` (with `check=True`).  Any
other exception from the state query (e.g. `IndexError` on empty output)
propagates.  `q` indexes the `domstate` query; the updated index is
returned. -/
def _install (env : Env) (g : Guest) (q : Nat) :
    Except PyErr Unit × Guest × Nat × List Call :=
  match guest_state env q with
  | .ok _ => (.ok (), g, q + 1, [Call.virshDomstate])
  | .error (.calledProcess _) =>
    match _kickstart env g with
    | (.error e, g2, t) => (.error e, g2, q + 1, Call.virshDomstate :: t)
    | (.ok _, g2, t) =>
      if pyTruthy g.hardware then
        (.error PyErr.assertionError, g2, q + 1,
          Call.virshDomstate :: (t ++ [Call.writeKickstart]))
      else
        match env.installCmd with
        | .error r => (.error (.calledProcess r), g2, q + 1,
            Call.virshDomstate :: (t ++ [Call.writeKickstart, Call.virtInstall]))
        | .ok _ => (.ok (), g2, q + 1,
            Call.virshDomstate :: (t ++ [Call.writeKickstart, Call.virtInstall]))
  | .error e => (.error e, g, q + 1, [Call.virshDomstate])

/-- Tail of `start` after the domain is booted: resolve the address,
record it together with port 22, then run the reconnect probe, failing
with a provisioning error when the probe does not succeed in time. -/
def start_connect (env : Env) (g : Guest) (t : List Call) :
    Except PyErr Unit × Guest × List Call :=
  match get_guest_ip env.domifaddr with
  | (.error e, t2) => (.error e, g, t ++ t2)
  | (.ok ip, t2) =>
    let g3 := { g with guest := some ip, port := some 22 }
    if env.reconnectOk then (.ok (), g3, t ++ t2 ++ [Call.reconnectProbe])
    else (.error (.provisionError "Failed to connect in 60s."), g3,
      t ++ t2 ++ [Call.reconnectProbe])

/-- Middle of `start` after installation: query the domain state (errors
propagate unwrapped here), issue `virsh start` when the state is not
`running`, then continue with `start_connect`. -/
def start_boot (env : Env) (g : Guest) (q : Nat) (t : List Call) :
    Except PyErr Unit × Guest × List Call :=
  match guest_state env q with
  | .error e => (.error e, g, t ++ [Call.virshDomstate])
  | .ok st =>
    if st = "running" then start_connect env g (t ++ [Call.virshDomstate])
    else
      match env.startCmd with
      | .error r => (.error (.calledProcess r), g,
          t ++ [Call.virshDomstate, Call.virshStart])
      | .ok _ => start_connect env g (t ++ [Call.virshDomstate, Call.virshStart])

/-- `start`: record the generated instance name, return at once under
`--dry`, otherwise install (a `CalledProcessError` from `_install` is
wrapped into a provisioning error; other exceptions propagate), boot and
connect. -/
def start (env : Env) (g : Guest) : Except PyErr Unit × Guest × List Call :=
  if g.dry then (.ok (), { g with instance_name := some env.tmtName }, [])
  else
    match _install env { g with instance_name := some env.tmtName } 0 with
    | (.error (.calledProcess _), g2, _, t) =>
        (.error (.provisionError "Failed to install OS on a libvirt guest."), g2, t)
    | (.error e, g2, _, t) => (.error e, g2, t)
    | (.ok _, g2, q, t) => start_boot env g2 q t

/-- `stop`: the generic SSH-guest stop sequence first, then
`virsh shutdown` (with `check=True`). -/
def stop (env : Env) : Except PyErr Unit × List Call :=
  match env.shutdownCmd with
  | .error r => (.error (.calledProcess r), [Call.sshStop, Call.virshShutdown])
  | .ok _ => (.ok (), [Call.sshStop, Call.virshShutdown])

/-- The confirmation loop of `remove`: up to `fuel` polls of the domain
state, breaking on `shut off` and sleeping one second otherwise; an
exception from the state query propagates. -/
def remove_poll (env : Env) : Nat → Nat → Except PyErr Unit × Nat × List Call
  | q, 0 => (.ok (), q, [])
  | q, fuel + 1 =>
    match guest_state env q with
    | .error e => (.error e, q + 1, [Call.virshDomstate])
    | .ok st =>
      if st = "shut off" then (.ok (), q + 1, [Call.virshDomstate])
      else
        let r := remove_poll env (q + 1) fuel
        (r.1, r.2.1, Call.virshDomstate :: Call.sleep1 :: r.2.2)

/-- Final step of `remove`: `virsh undefine --remove-all-storage --nvram
--tpm` (with `check=True`), appended to the accumulated trace. -/
def remove_undefine (env : Env) (t : List Call) : Except PyErr Unit × List Call :=
  match env.undefineCmd with
  | .error r => (.error (.calledProcess r), t ++ [Call.virshUndefine])
  | .ok _ => (.ok (), t ++ [Call.virshUndefine])

/-- `remove`: when the state is not `shut off`, issue `virsh destroy` and
poll up to 10 times for `shut off`; afterwards (whatever the poll
outcome) issue the undefine with full cleanup. -/
def remove (env : Env) : Except PyErr Unit × List Call :=
  match guest_state env 0 with
  | .error e => (.error e, [Call.virshDomstate])
  | .ok st =>
    if st = "shut off" then remove_undefine env [Call.virshDomstate]
    else
      match env.destroyCmd with
      | .error r => (.error (.calledProcess r), [Call.virshDomstate, Call.virshDestroy])
      | .ok _ =>
        match remove_poll env 1 10 with
        | (.error e, _, t) => (.error e, Call.virshDomstate :: Call.virshDestroy :: t)
        | (.ok _, _, t) =>
          remove_undefine env (Call.virshDomstate :: Call.virshDestroy :: t)

/-- `reboot`: delegate to the generic SSH-guest reboot when a command is
supplied; otherwise fail with the fatal no-instance provisioning error
when no instance has been started, or perform a reconnect-based reboot. -/
def reboot (env : Env) (g : Guest) (command : Option String) :
    Except PyErr Bool × List Call :=
  match command with
  | some _ => (.ok env.superRebootOk, [Call.superReboot])
  | none =>
    if g._instance = none then
      (.error (.provisionError "No instance initialized."), [])
    else (.ok env.reconnectOk, [Call.reconnectProbe])

/-- `is_ready`: `False` when the domain state differs from `running`,
otherwise the generic SSH readiness; an exception from the state query
propagates. -/
def is_ready (env : Env) (q : Nat) : Except PyErr Bool :=
  match guest_state env q with
  | .error e => .error e
  | .ok st => if st ≠ "running" then .ok false else .ok env.superReady

/-- The address-resolution claim, in the words of the spec: the final
whitespace-delimited field of the last-but-one output line, with any
slash-separated subnet-prefix suffix stripped; `none` when the output has
no last-but-one line or that line has no fields. -/
def specResolvedAddress (lines : List String) : Option String :=
  match lines.dropLast.getLast? with
  | none => none
  | some penult =>
    match (pySplitWs penult).getLast? with
    | none => none
    | some fld => some (pySplitSlashHead fld)

/-- A guest handle as freshly constructed: no key, no address, hardware
absent, no started instance. -/
def g0 : Guest :=
  { instance_name := none, guest := none, port := none, key := [],
    hardware := none, kickstart := [], dry := false,
    workdir := "/var/tmp/wd", user := "root", _instance := none }

/-- The fresh guest with a non-empty hardware-requirement descriptor. -/
def gHw : Guest := { g0 with hardware := some [("memory", "2 GB")] }

/-- The fresh guest with the dry-run option set. -/
def gDry : Guest := { g0 with dry := true }

/-- A `virsh domifaddr` output table carrying the address 192.0.2.5/24 on
the last-but-one line. -/
def happyIfaddrLines : List String :=
  [" Name MAC Protocol Address",
   "----",
   " vnet0 52:54:00:11:22:33 ipv4 192.0.2.5/24",
   ""]

/-- An environment whose hypervisor always reports a running domain and
whose commands all succeed. -/
def envRun : Env :=
  { domstate := fun _ => .ok ["running"],
    domifaddr := fun _ => .ok happyIfaddrLines,
    startCmd := .ok (), shutdownCmd := .ok (), destroyCmd := .ok (),
    undefineCmd := .ok (), installCmd := .ok (), keygenCmd := .ok (),
    derivePub := fun _ => "ssh-ed25519 AAAATEST", reconnectOk := true,
    superReady := true, superRebootOk := true, tmtName := "g1" }

/-- An environment for a fresh provisioning run: the domain is undefined
until installed (first state query fails), reported `shut off` right
after installation and `running` from then on; the address query answers
at once and every command succeeds. -/
def envHappy : Env :=
  { envRun with
    domstate := fun n =>
      if n = 0 then .error 1
      else if n = 1 then .ok ["shut off"] else .ok ["running"] }

/-- An environment whose domain state is never `shut off` (always
`running`), for the removal confirmation loop. -/
def envNeverOff : Env := envRun

/-- A mock interface that fails once and then answers the address query. -/
def mockIfaddrSecond : Nat → Except Nat (List String) :=
  fun n => if n = 0 then Except.error 1 else Except.ok happyIfaddrLines

/-- Selects the state-changing external commands (as opposed to queries,
sleeps and local effects). -/
def isLifecycleCmd : Call → Bool
  | .virshStart | .virshShutdown | .virshDestroy | .virshUndefine | .virtInstall => true
  | _ => false

theorem countCall_append (c : Call) (a b : List Call) :
    countCall c (a ++ b) = countCall c a + countCall c b := by
  induction a with
  | nil => simp [countCall]
  | cons x t ih => simp [countCall, ih]; omega

theorem lastCall_append_singleton (t : List Call) (a : Call) :
    lastCall (t ++ [a]) = some a := by
  induction t with
  | nil => rfl
  | cons x s ih =>
    cases s with
    | nil => rfl
    | cons y r => simpa [lastCall] using ih

theorem get_guest_ip_go_fail (oracle : Nat → Except Nat (List String)) :
    ∀ fuel q, (∀ n, n < fuel → ∃ r, oracle (q + n) = Except.error r) →
      (get_guest_ip_go oracle q fuel).1 = Except.error (PyErr.unboundLocal "e")
      ∧ countCall Call.virshDomifaddr (get_guest_ip_go oracle q fuel).2 = fuel
      ∧ countCall Call.sleep1 (get_guest_ip_go oracle q fuel).2 = fuel := by
  intro fuel
  induction fuel with
  | zero => intro q h; exact ⟨rfl, rfl, rfl⟩
  | succ m ih =>
    intro q h
    obtain ⟨r, hr⟩ := h 0 (Nat.succ_pos m)
    have hq : oracle q = Except.error r := by simpa using hr
    have ih2 := ih (q + 1) (fun n hn => by
      have h2 := h (n + 1) (by omega)
      rw [(by omega : q + (n + 1) = q + 1 + n)] at h2
      exact h2)
    simp only [get_guest_ip_go, hq]
    refine ⟨ih2.1, ?_, ?_⟩ <;> simp [countCall, ih2.2.1, ih2.2.2] <;> omega

theorem get_guest_ip_go_success (oracle : Nat → Except Nat (List String)) :
    ∀ j fuel q lines, j < fuel →
      (∀ n, n < j → ∃ r, oracle (q + n) = Except.error r) →
      oracle (q + j) = Except.ok lines →
      (get_guest_ip_go oracle q fuel).1 = parseDomifaddr lines
      ∧ countCall Call.virshDomifaddr (get_guest_ip_go oracle q fuel).2 = j + 1
      ∧ countCall Call.sleep1 (get_guest_ip_go oracle q fuel).2 = j := by
  intro j
  induction j with
  | zero =>
    intro fuel q lines hj hfail hok
    cases fuel with
    | zero => omega
    | succ m =>
      have hq : oracle q = Except.ok lines := by simpa using hok
      simp only [get_guest_ip_go, hq]
      cases hp : parseDomifaddr lines <;> simp [countCall, hp]
  | succ i ih =>
    intro fuel q lines hj hfail hok
    cases fuel with
    | zero => omega
    | succ m =>
      obtain ⟨r, hr⟩ := hfail 0 (Nat.succ_pos i)
      have hq : oracle q = Except.error r := by simpa using hr
      have ih2 := ih m (q + 1) lines (by omega)
        (fun n hn => by
          have h2 := hfail (n + 1) (by omega)
          rw [(by omega : q + (n + 1) = q + 1 + n)] at h2
          exact h2)
        (by rw [(by omega : q + 1 + i = q + (i + 1))]; exact hok)
      simp only [get_guest_ip_go, hq]
      refine ⟨ih2.1, ?_, ?_⟩ <;> simp [countCall, ih2.2.1, ih2.2.2] <;> omega

/-- Claim C1 counterexample.  The claim says a missing/short output line
is treated as a transient condition that triggers a retry, and that after
all 10 attempts fail the last underlying failure is re-raised.  Neither
holds: a query that exits 0 with a single output line makes
`splitlines()[-2]` raise an uncaught `IndexError` after exactly one query
(no retry, no backoff), and when all 10 queries fail the `raise e` after
the loop raises `UnboundLocalError` — the `except`-clause variable `e` is
deleted when its handler exits — instead of the last
`CalledProcessError`. -/
theorem C1_counterexample :
    get_guest_ip (fun _ => Except.ok ["one line only"]) =
      (Except.error PyErr.indexError, [Call.virshDomifaddr])
    ∧ (get_guest_ip (fun _ => Except.error 1)).1 =
      Except.error (PyErr.unboundLocal "e") := by
  exact ⟨by decide, by decide⟩

/-- Claim C1, amended: `get_guest_ip` polls `virsh domifaddr` up to 10
times, sleeping one second after each attempt whose query command fails,
and retries only on such command failures; a successful query is parsed
at once and any parse outcome — address or uncaught subscript error — is
final, after exactly `j + 1` queries and `j` backoffs when the first `j`
attempts failed; if all 10 attempts fail with command errors the loop
raises `UnboundLocalError` (from the out-of-scope `raise e`) rather than
the last underlying failure, after exactly 10 queries and 10 sleeps. -/
theorem C1_resolver_retry (oracle : Nat → Except Nat (List String)) (j : Nat)
    (lines : List String) (hj : j < 10)
    (hfail : ∀ n, n < j → ∃ r, oracle n = Except.error r) :
    (oracle j = Except.ok lines →
      (get_guest_ip oracle).1 = parseDomifaddr lines
      ∧ countCall Call.virshDomifaddr (get_guest_ip oracle).2 = j + 1
      ∧ countCall Call.sleep1 (get_guest_ip oracle).2 = j)
    ∧ ((∀ n, n < 10 → ∃ r, oracle n = Except.error r) →
      (get_guest_ip oracle).1 = Except.error (PyErr.unboundLocal "e")
      ∧ countCall Call.virshDomifaddr (get_guest_ip oracle).2 = 10
      ∧ countCall Call.sleep1 (get_guest_ip oracle).2 = 10) := by
  constructor
  · intro hok
    exact get_guest_ip_go_success oracle j 10 0 lines hj
      (fun n hn => by simpa using hfail n hn) (by simpa using hok)
  · intro hall
    exact get_guest_ip_go_fail oracle 10 0 (fun n hn => by simpa using hall n hn)

/-- Witness for the amended C1: a mock that fails on the first query and
answers on the second resolves the address with exactly two queries. -/
theorem C1_witness :
    (get_guest_ip mockIfaddrSecond).1 = Except.ok "192.0.2.5"
    ∧ countCall Call.virshDomifaddr (get_guest_ip mockIfaddrSecond).2 = 2 := by
  have h := C1_resolver_retry mockIfaddrSecond 1 happyIfaddrLines (by omega)
    (fun n hn => ⟨1, by
      have hn0 : n = 0 := by omega
      subst hn0; rfl⟩)
  have h2 := h.1 rfl
  exact ⟨by rw [h2.1]; decide, h2.2.1⟩

/-- Claim C5: `reboot` without a caller-supplied command on a guest whose
instance was never started fails with the fatal no-instance provisioning
error and performs no external call at all. -/
theorem C5_reboot_no_instance (env : Env) (g : Guest) (h : g._instance = none) :
    reboot env g none =
      (Except.error (PyErr.provisionError "No instance initialized."), []) := by
  simp [reboot, h]

/-- Witness for C5 on the fresh guest. -/
theorem C5_witness :
    reboot envRun g0 none =
      (Except.error (PyErr.provisionError "No instance initialized."), []) :=
  C5_reboot_no_instance envRun g0 rfl

/-- Claim C7: `is_ready` evaluates to `True` exactly when the domain-state
query returns `running` and the generic SSH readiness also reports ready
(a conjunction; a failing or non-`running` state query never yields
`True`). -/
theorem C7_is_ready_conjunction (env : Env) (q : Nat) :
    is_ready env q = Except.ok true ↔
      (guest_state env q = Except.ok "running" ∧ env.superReady = true) := by
  unfold is_ready
  cases hs : guest_state env q with
  | error e => simp
  | ok st =>
    by_cases hr : st = "running"
    · subst hr; simp
    · simp [hr]

/-- Claim C10: under the dry-run option, `start` records the generated
instance name and returns: no external call is made and every other
handle field is left unchanged. -/
theorem C10_dry_run (env : Env) (g : Guest) (h : g.dry = true) :
    start env g = (Except.ok (), { g with instance_name := some env.tmtName }, []) := by
  simp [start, h]

/-- Witness for C10 on the fresh guest with the dry-run option. -/
theorem C10_witness :
    start envRun gDry = (Except.ok (), { gDry with instance_name := some "g1" }, []) :=
  C10_dry_run envRun gDry rfl

/-- Claim C8: `stop` always performs the generic SSH-guest stop sequence
strictly before the hypervisor shutdown (its trace is literally the
former followed by the latter), and a stop-then-remove sequence on a
running guest issues the lifecycle commands in the order shutdown,
destroy, undefine. -/
theorem C8_stop_before_shutdown :
    (∀ env : Env, (stop env).2 = [Call.sshStop, Call.virshShutdown])
    ∧ ((stop envRun).2 ++ (remove envRun).2).filter isLifecycleCmd =
        [Call.virshShutdown, Call.virshDestroy, Call.virshUndefine] := by
  constructor
  · intro env
    cases h : env.shutdownCmd <;> simp [stop, h]
  · decide

theorem remove_poll_ok (env : Env)
    (hst : ∀ n, ∃ s rest, env.domstate n = Except.ok (s :: rest)) :
    ∀ fuel q, (remove_poll env q fuel).1 = Except.ok ()
      ∧ countCall Call.virshUndefine (remove_poll env q fuel).2.2 = 0 := by
  intro fuel
  induction fuel with
  | zero => intro q; exact ⟨rfl, rfl⟩
  | succ m ih =>
    intro q
    obtain ⟨s, rest, hs⟩ := hst q
    have hgs : guest_state env q = Except.ok s := by simp [guest_state, hs]
    simp only [remove_poll, hgs]
    by_cases hoff : s = "shut off"
    · simp [hoff, countCall]
    · have ih2 := ih (q + 1)
      simp [hoff, countCall, ih2.1, ih2.2]

/-- Claim C4: whatever domain states the hypervisor reports (including a
domain that never reaches `shut off`), as long as the state query itself
answers and the destroy command succeeds, `remove` issues the undefine
with full cleanup exactly once, as the last external event, after the
polling has completed. -/
theorem C4_remove_undefine_once (env : Env)
    (hst : ∀ n, ∃ s rest, env.domstate n = Except.ok (s :: rest))
    (hdes : env.destroyCmd = Except.ok ()) :
    countCall Call.virshUndefine (remove env).2 = 1
    ∧ lastCall (remove env).2 = some Call.virshUndefine := by
  obtain ⟨s, rest, hs⟩ := hst 0
  have hgs : guest_state env 0 = Except.ok s := by simp [guest_state, hs]
  by_cases hoff : s = "shut off"
  · cases hu : env.undefineCmd <;>
      simp [remove, hgs, hoff, remove_undefine, hu, countCall, lastCall]
  · have hp := remove_poll_ok env hst 10 1
    rcases hrp : remove_poll env 1 10 with ⟨res, q2, t⟩
    rw [hrp] at hp
    obtain ⟨hres, ht⟩ := hp
    have hres' : res = Except.ok () := hres
    subst hres'
    cases hu : env.undefineCmd with
    | error r =>
      constructor
      · simp [remove, hgs, hoff, hdes, hrp, remove_undefine, hu, countCall_append,
          countCall, ht]
      · simp [remove, hgs, hoff, hdes, hrp, remove_undefine, hu]
        rw [show Call.virshDomstate :: Call.virshDestroy :: (t ++ [Call.virshUndefine]) =
            (Call.virshDomstate :: Call.virshDestroy :: t) ++ [Call.virshUndefine] from by simp]
        exact lastCall_append_singleton _ _
    | ok u =>
      constructor
      · simp [remove, hgs, hoff, hdes, hrp, remove_undefine, hu, countCall_append,
          countCall, ht]
      · simp [remove, hgs, hoff, hdes, hrp, remove_undefine, hu]
        rw [show Call.virshDomstate :: Call.virshDestroy :: (t ++ [Call.virshUndefine]) =
            (Call.virshDomstate :: Call.virshDestroy :: t) ++ [Call.virshUndefine] from by simp]
        exact lastCall_append_singleton _ _

/-- Witness for C4: a hypervisor that always reports `running` (never
`shut off`) still sees exactly one undefine, issued last. -/
theorem C4_witness :
    countCall Call.virshUndefine (remove envNeverOff).2 = 1
    ∧ lastCall (remove envNeverOff).2 = some Call.virshUndefine :=
  C4_remove_undefine_once envNeverOff (fun _ => ⟨"running", [], rfl⟩) rfl

/-- Claim C9: the key-pair is generated lazily, at most once.  When a key
is already recorded, the accessor skips generation, leaves the handle
unchanged and returns the public half derived from that key.  On a fresh
handle (no key) with a succeeding generator, the first access generates
exactly once, records the key path, and returns the derived public half;
a second access generates nothing, returns the same public half and
leaves the handle unchanged. -/
theorem C9_ssh_key_lazy (env : Env) (g : Guest) :
    (g.key ≠ [] →
      countCall Call.sshKeygenGen (ssh_pubkey env g).2.2 = 0
      ∧ (ssh_pubkey env g).2.1 = g
      ∧ (ssh_pubkey env g).1 = Except.ok (env.derivePub (g.key.headD "")))
    ∧ (g.key = [] → env.keygenCmd = Except.ok () →
      countCall Call.sshKeygenGen (ssh_pubkey env g).2.2 = 1
      ∧ (ssh_pubkey env g).2.1.key = [g.workdir ++ "/ssh_key"]
      ∧ (ssh_pubkey env g).1 = Except.ok (env.derivePub (g.workdir ++ "/ssh_key"))
      ∧ countCall Call.sshKeygenGen (ssh_pubkey env ((ssh_pubkey env g).2.1)).2.2 = 0
      ∧ (ssh_pubkey env ((ssh_pubkey env g).2.1)).1 = (ssh_pubkey env g).1
      ∧ (ssh_pubkey env ((ssh_pubkey env g).2.1)).2.1 = (ssh_pubkey env g).2.1) := by
  constructor
  · intro hk
    cases hkey : g.key with
    | nil => exact absurd hkey hk
    | cons k ks =>
      simp [ssh_pubkey, _generate_ssh_key, hkey, countCall]
  · intro hk hkg
    simp [ssh_pubkey, _generate_ssh_key, hk, hkg, countCall]

/-- Witness for C9 on the fresh guest: one generation on the first
access, none on the second, same derived public key. -/
theorem C9_witness :
    countCall Call.sshKeygenGen (ssh_pubkey envRun g0).2.2 = 1
    ∧ countCall Call.sshKeygenGen (ssh_pubkey envRun ((ssh_pubkey envRun g0).2.1)).2.2 = 0
    ∧ (ssh_pubkey envRun ((ssh_pubkey envRun g0).2.1)).1 = (ssh_pubkey envRun g0).1 := by
  have h := (C9_ssh_key_lazy envRun g0).2 rfl rfl
  exact ⟨h.1, h.2.2.2.1, h.2.2.2.2.1⟩

/-- Claim C2: installation is attempted at most once per identity.  When
the domain-state query succeeds, `_install` returns at once, unchanged
handle, no effect beyond the single query.  When the first call installs
(domain initially undefined) and the hypervisor reports the domain
defined afterwards, a second call performs no further install
invocation: the two calls together invoke the installer exactly once. -/
theorem C2_install_at_most_once (env : Env) (g : Guest) (q : Nat) :
    (∀ s rest, env.domstate q = Except.ok (s :: rest) →
      _install env g q = (Except.ok (), g, q + 1, [Call.virshDomstate]))
    ∧ (∀ r0 s rest, env.domstate 0 = Except.error r0 →
        env.domstate 1 = Except.ok (s :: rest) →
        env.keygenCmd = Except.ok () → pyTruthy g.hardware = false →
        countCall Call.virtInstall (_install env g 0).2.2.2 = 1
        ∧ countCall Call.virtInstall
            (_install env ((_install env g 0).2.1) ((_install env g 0).2.2.1)).2.2.2
            = 0) := by
  constructor
  · intro s rest h
    simp [_install, guest_state, h]
  · intro r0 s rest h0 h1 hkg hhw
    have hgs0 : guest_state env 0 = Except.error (PyErr.calledProcess r0) := by
      simp [guest_state, h0]
    have hgs1 : guest_state env 1 = Except.ok s := by
      simp [guest_state, h1]
    cases hkey : g.key with
    | nil =>
      cases hi : env.installCmd <;>
        simp [_install, hgs0, hgs1, _kickstart, ssh_pubkey, _generate_ssh_key,
          hkey, hkg, hhw, hi, countCall, countCall_append]
    | cons a b =>
      cases hi : env.installCmd <;>
        simp [_install, hgs0, hgs1, _kickstart, ssh_pubkey, _generate_ssh_key,
          hkey, hkg, hhw, hi, countCall, countCall_append]

/-- Witness for C2: in the fresh-provisioning environment the double call
to `_install` invokes the installer exactly once. -/
theorem C2_witness :
    countCall Call.virtInstall (_install envHappy g0 0).2.2.2 = 1
    ∧ countCall Call.virtInstall
        (_install envHappy ((_install envHappy g0 0).2.1)
          ((_install envHappy g0 0).2.2.1)).2.2.2 = 0 :=
  (C2_install_at_most_once envHappy g0 0).2 1 "shut off" [] rfl rfl rfl rfl

/-- Claim C3 counterexample: the hardware check is not reached before
every external interaction.  With a non-empty hardware-requirement
descriptor but a hypervisor that already reports a defined domain,
`_install` performs the domain-state query and returns successfully — no
configuration error is raised at all, refuting the claim that a fatal
configuration error is raised on every install call with non-empty
hardware before any external invocation. -/
theorem C3_counterexample :
    pyTruthy gHw.hardware = true
    ∧ _install envRun gHw 0 = (Except.ok (), gHw, 1, [Call.virshDomstate]) := by
  exact ⟨rfl, by decide⟩

/-- Claim C3, amended: with a non-empty hardware descriptor, when the
domain-state query fails (domain not yet defined) and the key generator
succeeds, `_install` raises the assertion failure before the install
command is ever invoked — but only after the domain-state query has been
made and the kickstart artifact has been written (the trace starts with
the query and ends with the artifact write); when the domain-state query
succeeds the check is skipped entirely and no error is raised. -/
theorem C3_hardware_assert (env : Env) (g : Guest) (q : Nat) (r0 : Nat)
    (hhw : pyTruthy g.hardware = true)
    (h0 : env.domstate q = Except.error r0)
    (hkg : env.keygenCmd = Except.ok ()) :
    (_install env g q).1 = Except.error PyErr.assertionError
    ∧ countCall Call.virtInstall (_install env g q).2.2.2 = 0
    ∧ (_install env g q).2.2.2.head? = some Call.virshDomstate
    ∧ lastCall (_install env g q).2.2.2 = some Call.writeKickstart := by
  have hgs : guest_state env q = Except.error (PyErr.calledProcess r0) := by
    simp [guest_state, h0]
  cases hkey : g.key with
  | nil =>
    simp [_install, hgs, _kickstart, ssh_pubkey, _generate_ssh_key, hkey, hkg,
      hhw, countCall, lastCall]
  | cons a b =>
    simp [_install, hgs, _kickstart, ssh_pubkey, _generate_ssh_key, hkey, hkg,
      hhw, countCall, lastCall]

/-- Witness for the amended C3 in the fresh-provisioning environment. -/
theorem C3_witness :
    (_install envHappy gHw 0).1 = Except.error PyErr.assertionError
    ∧ countCall Call.virtInstall (_install envHappy gHw 0).2.2.2 = 0 := by
  have h := C3_hardware_assert envHappy gHw 0 1 rfl rfl rfl
  exact ⟨h.1, h.2.1⟩

theorem getLast?_eq_dif (xs : List String) :
    xs.getLast? =
      if h : 1 ≤ xs.length then some (xs.get ⟨xs.length - 1, by omega⟩)
      else none := by
  rw [List.getLast?_eq_getElem?]
  by_cases h : 1 ≤ xs.length
  · rw [dif_pos h, List.getElem?_eq_getElem (by omega)]
    simp [List.get_eq_getElem]
  · rw [dif_neg h, List.getElem?_eq_none (by omega)]

theorem dropLast_getLast?_eq_dif (xs : List String) :
    xs.dropLast.getLast? =
      if h : 2 ≤ xs.length then some (xs.get ⟨xs.length - 2, by omega⟩)
      else none := by
  rw [List.getLast?_eq_getElem?, List.length_dropLast]
  by_cases h : 2 ≤ xs.length
  · rw [dif_pos h]
    have hlt : xs.length - 1 - 1 < xs.dropLast.length := by
      rw [List.length_dropLast]; omega
    rw [List.getElem?_eq_getElem hlt, List.getElem_dropLast]
    rfl
  · rw [dif_neg h, List.getElem?_eq_none (by rw [List.length_dropLast]; omega)]

theorem pyIdxFromEnd_one_getLast? (xs : List String) :
    pyIdxFromEnd xs 1 = (match xs.getLast? with
      | some f => Except.ok f
      | none => Except.error PyErr.indexError) := by
  rw [getLast?_eq_dif]
  by_cases h1 : 1 ≤ xs.length
  · rw [dif_pos h1]; unfold pyIdxFromEnd; rw [dif_pos ⟨h1, by omega⟩]
  · rw [dif_neg h1]; unfold pyIdxFromEnd; rw [dif_neg (fun hc => h1 hc.1)]

theorem pyIdxFromEnd_two_dropLast (xs : List String) :
    pyIdxFromEnd xs 2 = (match xs.dropLast.getLast? with
      | some l => Except.ok l
      | none => Except.error PyErr.indexError) := by
  rw [dropLast_getLast?_eq_dif]
  by_cases h2 : 2 ≤ xs.length
  · rw [dif_pos h2]; unfold pyIdxFromEnd; rw [dif_pos ⟨h2, by omega⟩]
  · rw [dif_neg h2]; unfold pyIdxFromEnd; rw [dif_neg (fun hc => h2 hc.1)]

/-- The implementation parser and the spec-side description agree: the
resolver yields an address exactly when the spec-side reading of the
output produces the same address. -/
theorem parseDomifaddr_spec (lines : List String) (a : String) :
    parseDomifaddr lines = Except.ok a ↔ specResolvedAddress lines = some a := by
  unfold parseDomifaddr specResolvedAddress
  rw [pyIdxFromEnd_two_dropLast]
  cases lines.dropLast.getLast? with
  | none => simp
  | some penult =>
    show (match pyIdxFromEnd (pySplitWs penult) 1 with
        | .error e => Except.error e
        | .ok f => Except.ok (pySplitSlashHead f)) = Except.ok a ↔
      (match (pySplitWs penult).getLast? with
        | none => none
        | some fld => some (pySplitSlashHead fld)) = some a
    rw [pyIdxFromEnd_one_getLast?]
    cases (pySplitWs penult).getLast? with
    | none => simp
    | some fld => simp

theorem start_connect_port (env : Env) (g : Guest) (t : List Call) :
    (start_connect env g t).1 = Except.ok () →
    (start_connect env g t).2.1.port = some 22 := by
  unfold start_connect
  rcases get_guest_ip env.domifaddr with ⟨res, t2⟩
  cases res with
  | error e => exact fun h => Except.noConfusion h
  | ok ip =>
    cases env.reconnectOk
    · exact fun h => Except.noConfusion h
    · exact fun h => rfl

theorem start_boot_port (env : Env) (g : Guest) (q : Nat) (t : List Call) :
    (start_boot env g q t).1 = Except.ok () →
    (start_boot env g q t).2.1.port = some 22 := by
  unfold start_boot
  split
  · exact fun h => Except.noConfusion h
  · split
    · exact start_connect_port env g _
    · split
      · exact fun h => Except.noConfusion h
      · exact start_connect_port env g _

theorem start_port (env : Env) (g : Guest) (hdry : g.dry = false) :
    (start env g).1 = Except.ok () →
    (start env g).2.1.port = some 22 := by
  unfold start
  rw [if_neg (by simp [hdry])]
  split
  · exact fun h => Except.noConfusion h
  · exact fun h => Except.noConfusion h
  · exact fun h => start_boot_port env _ _ _ h

/-- Claim C6: the resolved address is the final whitespace-delimited
field of the last-but-one output line with any slash-separated
subnet-prefix suffix stripped (the implementation parser agrees with the
spec-side reading on every output); in particular a table whose
last-but-one line ends in 192.0.2.5/24 resolves to 192.0.2.5 on the
first query, the full fresh-provisioning `start` records that address,
and after any successful non-dry `start` the handle port is 22. -/
theorem C6_resolved_address :
    (∀ lines a, parseDomifaddr lines = Except.ok a ↔
      specResolvedAddress lines = some a)
    ∧ get_guest_ip (fun _ => Except.ok happyIfaddrLines) =
        (Except.ok "192.0.2.5", [Call.virshDomifaddr])
    ∧ (start envHappy g0).1 = Except.ok ()
    ∧ (start envHappy g0).2.1.guest = some "192.0.2.5"
    ∧ (start envHappy g0).2.1.port = some 22
    ∧ (∀ env g, g.dry = false → (start env g).1 = Except.ok () →
        (start env g).2.1.port = some 22) :=
  ⟨fun lines a => parseDomifaddr_spec lines a,
   by decide, by decide, by decide, by decide,
   fun env g hdry h => start_port env g hdry h⟩

/-- Witness for C6: the fresh-provisioning run is a successful non-dry
start, and its handle port is 22. -/
theorem C6_witness :
    g0.dry = false ∧ (start envHappy g0).1 = Except.ok ()
    ∧ (start envHappy g0).2.1.port = some 22 :=
  ⟨rfl, by decide, (C6_resolved_address.2.2.2.2.2) envHappy g0 rfl (by decide)⟩
